import Mathlib

/-!
Shallow embedding of the prompt-mentor-mcp server (TypeScript) in Lean 4.

The embedding follows the source files:
  * utils (SERVER_NAME, validateServerState, validateToolParams)
  * gemini.ts (createGeminiClient, testConnectivity, reviewPrompts)
  * the three-tool server module (ListTools handler and CallTool handler
    for say_hello / test_gemini / review_prompts)
  * the hello-world snapshot (say_hello / get_current_time / server_info)

JavaScript runtime values that flow through the handlers are modelled by the
inductive type `JsValue`, with `typeOf` and `truthy` mirroring the semantics
of `typeof` and boolean coercion. Thrown exceptions are modelled with
`Except`: `McpError` for tagged protocol errors, `Thrown` for the union of
tagged and untagged exceptions inside a try block. Calls to the external
Gemini collaborator are modelled by an oracle parameter mapping the request
contents to either a thrown error message or the `res.text` value.
-/

/-- JavaScript runtime value, as far as the handlers inspect values:
undefined, null, booleans, numbers (integral values suffice for this code
base), strings, arrays and plain objects (association list of own
properties). -/
inductive JsValue where
  | undefined : JsValue
  | null : JsValue
  | bool : Bool → JsValue
  | num : Int → JsValue
  | str : String → JsValue
  | arr : List JsValue → JsValue
  | obj : List (String × JsValue) → JsValue
deriving Repr

/-- The JavaScript `typeof` operator on a `JsValue` (note `typeof null`,
`typeof` of null, of an array and of an object are all the string `object`). -/
def JsValue.typeOf : JsValue → String
  | .undefined => "undefined"
  | .null => "object"
  | .bool _ => "boolean"
  | .num _ => "number"
  | .str _ => "string"
  | .arr _ => "object"
  | .obj _ => "object"

/-- JavaScript boolean coercion: undefined, null, false, 0 and the empty
string are falsy; every array and object is truthy. -/
def JsValue.truthy : JsValue → Bool
  | .undefined => false
  | .null => false
  | .bool b => b
  | .num n => n != 0
  | .str s => s != ""
  | .arr _ => true
  | .obj _ => true

/-- Whether the value is a JavaScript string (its typeof is the string value string). -/
def JsValue.isString : JsValue → Bool
  | .str _ => true
  | _ => false

/-- Whether the value is an array (`Array.isArray`). -/
def JsValue.isArray : JsValue → Bool
  | .arr _ => true
  | _ => false

/-- Property access `v[k]` on a plain object (first binding wins, as own
properties are unique); any other receiver has none of the property names
this code base reads (`name`, `prompts`), so access yields undefined. -/
def JsValue.getProp (v : JsValue) (k : String) : JsValue :=
  match v with
  | .obj fields =>
    match fields.lookup k with
    | some w => w
    | none => .undefined
  | _ => .undefined

/-- Optional chaining `v?.k`: undefined when the receiver is nullish,
otherwise property access. -/
def JsValue.optChain (v : JsValue) (k : String) : JsValue :=
  match v with
  | .undefined => .undefined
  | .null => .undefined
  | w => w.getProp k

/-- The string payload of a string value (only used after an `isString`
guard in the embedded code, where it is exact). -/
def JsValue.strVal : JsValue → String
  | .str s => s
  | _ => ""

/-- JavaScript `String.prototype.trim`: strip leading and trailing
whitespace characters. -/
def jsTrim (s : String) : String :=
  ⟨(((s.data.dropWhile Char.isWhitespace).reverse.dropWhile Char.isWhitespace).reverse)⟩

/-- Error categories used by the server (`ErrorCode.InvalidParams`,
`ErrorCode.MethodNotFound`, `ErrorCode.InternalError`). -/
inductive ErrorCode where
  | invalidParams : ErrorCode
  | methodNotFound : ErrorCode
  | internalError : ErrorCode
deriving Repr, DecidableEq

/-- A tagged protocol error: `new McpError(code, message)`. -/
structure McpError where
  code : ErrorCode
  message : String
deriving Repr, DecidableEq

/-- A thrown JavaScript exception as seen by a catch block: either a tagged
`McpError` or any other error carrying a message. -/
inductive Thrown where
  | mcp : McpError → Thrown
  | other : String → Thrown
deriving Repr, DecidableEq

/-- One item of a tool result content list: a type tag (always the string text) and the text payload. -/
structure ContentItem where
  type : String
  text : String
deriving Repr, DecidableEq

/-- Successful tool call payload: a content list. -/
structure ToolResult where
  content : List ContentItem
deriving Repr, DecidableEq

/-- The single-text-item result every handler returns on success. -/
def toolText (t : String) : ToolResult :=
  ⟨[⟨"text", t⟩]⟩

/-- An incoming tool call: `request.params.name` and
`request.params.arguments`. Absent arguments are the value undefined. -/
structure CallRequest where
  name : JsValue
  arguments : JsValue
deriving Repr

/-- The transport schema (CallToolRequestSchema) only admits requests whose
`arguments` field is absent or a plain key-value object. -/
def WfArgs (v : JsValue) : Prop :=
  v = .undefined ∨ ∃ fields, v = .obj fields

/-- The module-level `server` constant is a constructed object, hence truthy
for the whole process lifetime. -/
def serverPresent : Bool := true

/-- From utils: `validateServerState(server)` throws InternalError when the
server reference is falsy. -/
def validateServerState (present : Bool) : Except McpError Unit :=
  if present then .ok ()
  else .error ⟨.internalError, "Server not properly initialized"⟩

/-- From utils: `validateToolParams(toolName, params)` throws InvalidParams when
the tool name is falsy or not a string, or when the params value is truthy
but not of object type. -/
def validateToolParams (toolName params : JsValue) : Except McpError Unit :=
  if !toolName.truthy || toolName.typeOf != "string" then
    .error ⟨.invalidParams, "Tool name must be a non-empty string"⟩
  else if params.truthy && params.typeOf != "object" then
    .error ⟨.invalidParams, "Tool parameters must be an object"⟩
  else .ok ()

/-- The external Gemini collaborator: given the `contents` string of a
`generateContent` call (the model name is the constant gemini-2.5-flash),
either a thrown transport/auth error message or the `res.text` value. -/
def Gemini : Type := String → Except String JsValue

/-- From gemini.ts, `createGeminiClient`: throws a plain Error when the key is
falsy or blank after trimming, otherwise builds a client from the trimmed
key (the client is represented by its trimmed key). -/
def createGeminiClient (apiKey : String) : Except String String :=
  if apiKey = "" || jsTrim apiKey = "" then
    .error "GEMINI_API_KEY is required and must be a non-empty string"
  else .ok (jsTrim apiKey)

/-- The fixed contents of the connectivity test call. -/
def testPrompt : String := "Explain how AI works in a few words"

/-- From gemini.ts, `testConnectivity`: create the client, call generateContent,
and return the text, with the fallback message when the text is falsy. -/
def testConnectivity (gem : Gemini) (apiKey : String) : Except String JsValue :=
  match createGeminiClient apiKey with
  | .error e => .error e
  | .ok _ =>
    match gem testPrompt with
    | .error e => .error e
    | .ok resText =>
      .ok (if resText.truthy then resText else .str "No response from Gemini API")

/-- JavaScript `Array.prototype.join(sep)` on a list of strings. -/
def joinSep (sep : String) : List String → String
  | [] => ""
  | [x] => x
  | x :: y :: xs => x ++ sep ++ joinSep sep (y :: xs)

/-- The numbered lines built by reviewPrompts: each prompt prefixed by its one-based index and a dot. -/
def numberedPrompts (prompts : List String) : List String :=
  prompts.enum.map fun p => toString (p.1 + 1) ++ ". " ++ p.2

/-- From gemini.ts, the `reviewPrompts` template literal: instructional preamble, the
numbered prompts joined by blank lines, and a closing request. -/
def buildReviewPrompt (prompts : List String) : String :=
  "You will be provided a list of chat messages that were sent as part of a conversation with an LLM. Your role is to be a mentor and provide feedback to the LLM user so that they learn ways to improve their prompts in the future. The goal is to educate the user about what makes an effective prompt, as well as point out mistakes being made in the given prompts. The prompts given by the user are as follows:\n\n"
    ++ joinSep "\n\n" (numberedPrompts prompts)
    ++ "\n\nPlease provide constructive feedback, highlighting both strengths and areas for improvement in these prompts."

/-- From gemini.ts, `reviewPrompts`: create the client, send the aggregate review
prompt, and return the text, with the fallback message when it is falsy. -/
def reviewPromptsGemini (gem : Gemini) (prompts : List String) (apiKey : String) :
    Except String JsValue :=
  match createGeminiClient apiKey with
  | .error e => .error e
  | .ok _ =>
    match gem (buildReviewPrompt prompts) with
    | .error e => .error e
    | .ok resText =>
      .ok (if resText.truthy then resText else .str "No response from Gemini API")

/-- The error message of the missing-credential check shared by the
test_gemini and review_prompts cases. -/
def keyErrMsg : String :=
  "GEMINI_API_KEY environment variable is required and must be a non-empty string"

/-- The say_hello case body of the three-tool server: a constant base greeting,
with the personalized suffix appended exactly when `args?.name` is truthy, a
string, and non-empty after trimming. -/
def sayHelloMessage (args : JsValue) : String :=
  let personName := args.optChain "name"
  let message := "Hello from your friendly MCP server!"
  if personName.truthy && personName.isString && jsTrim personName.strVal != "" then
    message ++ " Nice to meet you, " ++ jsTrim personName.strVal ++ "!"
  else message

/-- The test_gemini case body: check the environment credential, delegate to
testConnectivity (whose thrown errors are untagged), and reject a falsy or
non-string message with InternalError. -/
def testGeminiCase (env : Option String) (gem : Gemini) : Except Thrown ToolResult :=
  match env with
  | none => .error (.mcp ⟨.invalidParams, keyErrMsg⟩)
  | some apiKey =>
    if apiKey = "" || jsTrim apiKey = "" then
      .error (.mcp ⟨.invalidParams, keyErrMsg⟩)
    else
      match testConnectivity gem apiKey with
      | .error e => .error (.other e)
      | .ok message =>
        if !message.truthy || !message.isString then
          .error (.mcp ⟨.internalError, "Gemini API did not return a valid response"⟩)
        else .ok (toolText message.strVal)

/-- The review_prompts case body: shape-check `args?.prompts` (array, non-empty,
all strings, with three distinct InvalidParams messages), check the
environment credential, delegate to the Gemini review call, and reject a
falsy or non-string response with InternalError. -/
def reviewPromptsCase (env : Option String) (gem : Gemini) (args : JsValue) :
    Except Thrown ToolResult :=
  match args.optChain "prompts" with
  | .arr elems =>
    if elems.length = 0 then
      .error (.mcp ⟨.invalidParams, "prompts array cannot be empty"⟩)
    else if (elems.filter (fun p => !p.isString)).length > 0 then
      .error (.mcp ⟨.invalidParams, "All prompts must be strings"⟩)
    else
      match env with
      | none => .error (.mcp ⟨.invalidParams, keyErrMsg⟩)
      | some apiKey =>
        if apiKey = "" || jsTrim apiKey = "" then
          .error (.mcp ⟨.invalidParams, keyErrMsg⟩)
        else
          match reviewPromptsGemini gem (elems.map JsValue.strVal) apiKey with
          | .error e => .error (.other e)
          | .ok reviewResponse =>
            if !reviewResponse.truthy || !reviewResponse.isString then
              .error (.mcp ⟨.internalError, "Gemini API did not return a valid review response"⟩)
            else .ok (toolText reviewResponse.strVal)
  | _ => .error (.mcp ⟨.invalidParams, "prompts parameter is required and must be an array"⟩)

/-- The try block of the CallTool handler of the three-tool server: validate
server state and parameters, then switch on the tool name. In the default
arm the message interpolates the name; validateToolParams guarantees the
name is a string there, so `strVal` renders it exactly. -/
def callToolBody (env : Option String) (gem : Gemini) (req : CallRequest) :
    Except Thrown ToolResult :=
  match validateServerState serverPresent with
  | .error e => .error (.mcp e)
  | .ok _ =>
    match validateToolParams req.name req.arguments with
    | .error e => .error (.mcp e)
    | .ok _ =>
      match req.name with
      | .str "say_hello" => .ok (toolText (sayHelloMessage req.arguments))
      | .str "test_gemini" => testGeminiCase env gem
      | .str "review_prompts" => reviewPromptsCase env gem req.arguments
      | n => .error (.mcp ⟨.methodNotFound, "Unknown tool: " ++ n.strVal⟩)

/-- The catch block of the CallTool handlers: a tagged McpError is rethrown
as-is, any other error is wrapped into InternalError with the prefixed
message. -/
def wrapThrown : Thrown → McpError
  | .mcp e => e
  | .other msg => ⟨.internalError, "Tool execution failed: " ++ msg⟩

/-- The CallTool handler of the three-tool server: run the try block and
apply the catch block to anything it throws. -/
def callTool (env : Option String) (gem : Gemini) (req : CallRequest) :
    Except McpError ToolResult :=
  match callToolBody env gem req with
  | .ok r => .ok r
  | .error t => .error (wrapThrown t)

/-- A tool descriptor as returned by the ListTools handler. -/
structure ToolDescriptor where
  name : String
  description : String
  inputSchema : JsValue
deriving Repr

/-- The tool list literal of the three-tool server, in registration order. -/
def toolsList : List ToolDescriptor :=
  [⟨"say_hello", "Get a friendly hello message from the server",
    .obj [("type", .str "object"),
          ("properties", .obj [("name",
            .obj [("type", .str "string"),
                  ("description", .str "Optional name to personalize the greeting")])])]⟩,
   ⟨"test_gemini", "Test connectivity to the Gemini API",
    .obj [("type", .str "object"), ("properties", .obj [])]⟩,
   ⟨"review_prompts", "Review a list of prompts from a conversation",
    .obj [("type", .str "object"),
          ("properties", .obj [("prompts",
            .obj [("type", .str "array"),
                  ("description", .str "List of prompts from the conversation to review"),
                  ("items", .obj [("type", .str "string")])])]),
          ("required", .arr [.str "prompts"])]⟩]

/-- The ListTools handler of the three-tool server: validate server state,
then return the tool list literal. The catch block rethrows an McpError
as-is (the body throws nothing else, so the InternalError rewrap arm of the
catch is unreachable). -/
def listToolsHandler (_call : Unit) : Except McpError (List ToolDescriptor) :=
  match validateServerState serverPresent with
  | .error e => .error e
  | .ok _ => .ok toolsList

/-- The greeting pool of the hello-world snapshot. -/
def greetings : List String :=
  ["Hello from your friendly MCP server!",
   "Greetings! Your MCP server is working perfectly.",
   "Hi there! This is a sample message from your MCP server.",
   "Welcome! Your Model Context Protocol server is operational.",
   "Hello! This MCP server is ready to assist you."]

/-- The function `generateHelloMessage`: a uniformly random valid index into the greeting
pool, modelled by reducing an arbitrary natural seed modulo the pool size
(`Math.floor(Math.random() * greetings.length)` always lies in range, so the
fallback of `getD` is never taken). -/
def generateHelloMessage (randIdx : Nat) : String :=
  greetings.getD (randIdx % greetings.length) ""

/-- The function `getCurrentTimeFormatted`: the outcome of `toLocaleString` (a value or a
thrown formatting error) is the `fmt` parameter; on failure the function
falls back to the `toISOString()` value `isoNow` instead of rethrowing. -/
def getCurrentTimeFormatted (fmt : Except String String) (isoNow : String) : String :=
  match fmt with
  | .ok s => s
  | .error _ => isoNow

/-- The say_hello case body of the hello-world snapshot: like the three-tool
server but the base greeting comes from the random pool. -/
def sayHelloMessageRand (randIdx : Nat) (args : JsValue) : String :=
  let personName := args.optChain "name"
  let message := generateHelloMessage randIdx
  if personName.truthy && personName.isString && jsTrim personName.strVal != "" then
    message ++ " Nice to meet you, " ++ jsTrim personName.strVal ++ "!"
  else message

/-- The try block of the CallTool handler of the hello-world snapshot
(say_hello / get_current_time / server_info). `infoText` models the
`JSON.stringify(serverInfo, null, 2)` payload, which depends on runtime
process metadata (uptime, node version, platform). -/
def callToolHelloBody (randIdx : Nat) (fmt : Except String String)
    (isoNow : String) (infoText : String) (req : CallRequest) :
    Except Thrown ToolResult :=
  match validateServerState serverPresent with
  | .error e => .error (.mcp e)
  | .ok _ =>
    match validateToolParams req.name req.arguments with
    | .error e => .error (.mcp e)
    | .ok _ =>
      match req.name with
      | .str "say_hello" => .ok (toolText (sayHelloMessageRand randIdx req.arguments))
      | .str "get_current_time" =>
        .ok (toolText ("The current time is: " ++ getCurrentTimeFormatted fmt isoNow))
      | .str "server_info" =>
        .ok (toolText ("Server Information:\n" ++ infoText))
      | n => .error (.mcp ⟨.methodNotFound, "Unknown tool: " ++ n.strVal⟩)

/-- The CallTool handler of the hello-world snapshot: try block plus the
same catch block as the three-tool server. -/
def callToolHello (randIdx : Nat) (fmt : Except String String)
    (isoNow : String) (infoText : String) (req : CallRequest) :
    Except McpError ToolResult :=
  match callToolHelloBody randIdx fmt isoNow infoText req with
  | .ok r => .ok r
  | .error t => .error (wrapThrown t)

/-- Substring containment on strings, via infixes of the character lists. -/
def strContains (hay needle : String) : Prop :=
  needle.data <:+: hay.data

instance (hay needle : String) : Decidable (strContains hay needle) :=
  List.decidableInfix needle.data hay.data

/-- The credential check condition shared by test_gemini and
review_prompts: the environment variable is absent, empty, or blank after
trimming. -/
def credentialMissing (env : Option String) : Prop :=
  env = none ∨ ∃ k, env = some k ∧ (k = "" ∨ jsTrim k = "")

/-- Two strings with the same character data are equal. -/
theorem stringDataEq {a b : String} (h : a.data = b.data) : a = b := by
  cases a
  cases b
  exact congrArg String.mk h

/-- Containment is preserved by prepending on the left. -/
theorem strContains_append_right (s t n : String) (h : strContains t n) :
    strContains (s ++ t) n := by
  unfold strContains at h ⊢
  rw [String.data_append]
  exact h.trans (List.suffix_append s.data t.data).isInfix

/-- Containment is preserved by appending on the right. -/
theorem strContains_append_left (s t n : String) (h : strContains s n) :
    strContains (s ++ t) n := by
  unfold strContains at h ⊢
  rw [String.data_append]
  exact h.trans (List.prefix_append s.data t.data).isInfix

/-- Every string contains itself. -/
theorem strContains_refl (s : String) : strContains s s :=
  List.infix_refl s.data

/-- A member of a joined list is contained in the join. -/
theorem strContains_joinSep (sep : String) (l : List String) (x : String)
    (h : x ∈ l) : strContains (joinSep sep l) x := by
  induction l with
  | nil => cases h
  | cons y ys ih =>
    rcases List.mem_cons.mp h with rfl | h2
    · cases ys with
      | nil => exact strContains_refl x
      | cons z zs =>
        simp only [joinSep]
        exact strContains_append_left _ _ _
          (strContains_append_left _ _ _ (strContains_refl x))
    · cases ys with
      | nil => cases h2
      | cons z zs =>
        simp only [joinSep]
        exact strContains_append_right _ _ _ (ih h2)

/-- The i-th numbered line of the review prompt is the i-th input prompt
prefixed by its one-based index. -/
theorem numberedPrompts_getElem (prompts : List String) (i : Nat)
    (hi : i < prompts.length)
    (hi2 : i < (numberedPrompts prompts).length) :
    (numberedPrompts prompts)[i] =
      toString (i + 1) ++ ". " ++ prompts[i] := by
  unfold numberedPrompts
  rw [List.getElem_map, List.getElem_enum]

/-- The aggregate review prompt contains every numbered input line. -/
theorem strContains_buildReviewPrompt (prompts : List String) (i : Nat)
    (hi : i < prompts.length) :
    strContains (buildReviewPrompt prompts)
      (toString (i + 1) ++ ". " ++ prompts[i]) := by
  have hlen : i < (numberedPrompts prompts).length := by
    simpa [numberedPrompts] using hi
  have hmem : (toString (i + 1) ++ ". " ++ prompts[i]) ∈ numberedPrompts prompts := by
    rw [← numberedPrompts_getElem prompts i hi hlen]
    exact List.getElem_mem hlen
  unfold buildReviewPrompt
  exact strContains_append_left _ _ _
    (strContains_append_right _ _ _ (strContains_joinSep _ _ _ hmem))

/-- Parameter validation passes for any non-empty string tool name and any
schema-admissible arguments value. -/
theorem validateToolParams_ok (name : String) (h : name ≠ "") (args : JsValue)
    (hwf : WfArgs args) : validateToolParams (.str name) args = .ok () := by
  rcases hwf with rfl | ⟨fs, rfl⟩ <;>
    simp [validateToolParams, JsValue.truthy, JsValue.typeOf, h]

/-- For a review_prompts request with admissible arguments, the dispatcher
outcome is the review_prompts case body passed through the catch block. -/
theorem callTool_review_eq (env : Option String) (gem : Gemini) (args : JsValue)
    (hwf : WfArgs args) :
    callTool env gem ⟨.str "review_prompts", args⟩ =
      match reviewPromptsCase env gem args with
      | .ok r => .ok r
      | .error t => .error (wrapThrown t) := by
  rcases hwf with rfl | ⟨fs, rfl⟩ <;> rfl

/-- For a test_gemini request with admissible arguments, the dispatcher
outcome is the test_gemini case body passed through the catch block. -/
theorem callTool_testGemini_eq (env : Option String) (gem : Gemini) (args : JsValue)
    (hwf : WfArgs args) :
    callTool env gem ⟨.str "test_gemini", args⟩ =
      match testGeminiCase env gem with
      | .ok r => .ok r
      | .error t => .error (wrapThrown t) := by
  rcases hwf with rfl | ⟨fs, rfl⟩ <;> rfl

/-- A name that is a non-empty string and none of the three registered tools
reaches the default arm of the switch. -/
theorem callToolBody_unknown (env : Option String) (gem : Gemini) (name : String)
    (h1 : name ≠ "") (h2 : name ≠ "say_hello") (h3 : name ≠ "test_gemini")
    (h4 : name ≠ "review_prompts") (args : JsValue) (hwf : WfArgs args) :
    callToolBody env gem ⟨.str name, args⟩ =
      .error (.mcp ⟨.methodNotFound, "Unknown tool: " ++ name⟩) := by
  unfold callToolBody
  simp only [validateServerState, serverPresent, if_true,
    validateToolParams_ok name h1 args hwf]
  split <;> simp_all [JsValue.strVal]

/-- Claim C1: when the handler raises a failure during an invocation, the
dispatcher re-raises it unchanged (same code, same message) if it is already
a tagged McpError carrying one of the recognized categories, and otherwise
returns an InternalError whose message is exactly the string
`Tool execution failed: ` followed by the original failure message. -/
theorem dispatcher_wraps_handler_failures (env : Option String) (gem : Gemini)
    (req : CallRequest) (t : Thrown)
    (h : callToolBody env gem req = .error t) :
    (∀ e : McpError, t = .mcp e → callTool env gem req = .error e) ∧
    (∀ m : String, t = .other m →
      callTool env gem req =
        .error ⟨.internalError, "Tool execution failed: " ++ m⟩) := by
  unfold callTool
  rw [h]
  constructor
  · rintro e rfl
    rfl
  · rintro m rfl
    rfl

/-- Witness for C1 at a concrete input: a test_gemini invocation whose
collaborator call throws the untagged message `boom` is surfaced as
InternalError with the prefixed message. -/
theorem dispatcher_wraps_handler_failures_witness :
    callToolBody (some "k") (fun _ => .error "boom") ⟨.str "test_gemini", .undefined⟩ =
      .error (.other "boom") ∧
    callTool (some "k") (fun _ => .error "boom") ⟨.str "test_gemini", .undefined⟩ =
      .error ⟨.internalError, "Tool execution failed: boom"⟩ :=
  ⟨rfl,
   (dispatcher_wraps_handler_failures (some "k") (fun _ => .error "boom")
      ⟨.str "test_gemini", .undefined⟩ (.other "boom") rfl).2 "boom" rfl⟩

/-- Claim C3: an invocation whose tool name is a non-empty string different from
all registered tool names yields MethodNotFound with message exactly
`Unknown tool: ` followed by that name; in particular the message contains
the name. -/
theorem unknown_tool_method_not_found (name : String) (h1 : name ≠ "")
    (h2 : name ≠ "say_hello") (h3 : name ≠ "test_gemini")
    (h4 : name ≠ "review_prompts") (env : Option String) (gem : Gemini)
    (args : JsValue) (hwf : WfArgs args) :
    callTool env gem ⟨.str name, args⟩ =
      .error ⟨.methodNotFound, "Unknown tool: " ++ name⟩ ∧
    strContains ("Unknown tool: " ++ name) name := by
  constructor
  · unfold callTool
    rw [callToolBody_unknown env gem name h1 h2 h3 h4 args hwf]
    rfl
  · exact strContains_append_right _ _ _ (strContains_refl name)

/-- Witness for C3 at a concrete input: the unregistered name `nope`. -/
theorem unknown_tool_method_not_found_witness :
    callTool none (fun _ => .ok .undefined) ⟨.str "nope", .undefined⟩ =
      .error ⟨.methodNotFound, "Unknown tool: nope"⟩ ∧
    strContains "Unknown tool: nope" "nope" :=
  unknown_tool_method_not_found "nope" (by decide) (by decide) (by decide)
    (by decide) none (fun _ => .ok .undefined) .undefined (Or.inl rfl)

/-- Claim C6: an invocation whose tool name is the empty string or not a string at
all fails parameter validation with InvalidParams; the outcome is the same
for every environment, collaborator and arguments value, so no handler is
looked up or executed. -/
theorem bad_tool_name_invalid_params (name : JsValue)
    (h : name = .str "" ∨ name.isString = false) (env : Option String)
    (gem : Gemini) (args : JsValue) :
    callTool env gem ⟨name, args⟩ =
      .error ⟨.invalidParams, "Tool name must be a non-empty string"⟩ := by
  have hv : validateToolParams name args =
      .error ⟨.invalidParams, "Tool name must be a non-empty string"⟩ := by
    rcases h with rfl | h
    · rfl
    · cases name <;> simp_all [validateToolParams, JsValue.truthy,
        JsValue.typeOf, JsValue.isString]
  unfold callTool callToolBody
  simp only [validateServerState, serverPresent, if_true, hv]
  rfl

/-- Witness for C6 at concrete inputs: the empty name and a numeric name. -/
theorem bad_tool_name_invalid_params_witness :
    callTool none (fun _ => .ok .undefined) ⟨.str "", .undefined⟩ =
      .error ⟨.invalidParams, "Tool name must be a non-empty string"⟩ ∧
    callTool none (fun _ => .ok .undefined) ⟨.num 5, .obj []⟩ =
      .error ⟨.invalidParams, "Tool name must be a non-empty string"⟩ :=
  ⟨bad_tool_name_invalid_params (.str "") (Or.inl rfl) none _ .undefined,
   bad_tool_name_invalid_params (.num 5) (Or.inr rfl) none _ (.obj [])⟩

/-- Claim C9: the ListTools handler is idempotent and order-stable: any two calls
return the same descriptor sequence, whose names are the registered tool
names in registration order. -/
theorem list_tools_idempotent_ordered (u v : Unit) :
    listToolsHandler u = listToolsHandler v ∧
    ∃ descriptors, listToolsHandler u = .ok descriptors ∧
      descriptors.map ToolDescriptor.name =
        ["say_hello", "test_gemini", "review_prompts"] :=
  ⟨rfl, toolsList, rfl, rfl⟩

/-- Claim C10: parameter validation rejects exactly the argument values that are
truthy and not of JavaScript object type; arrays (including the empty array)
and null are of object type or falsy, so validation succeeds on them and the
say_hello dispatch proceeds to the handler, which returns its greeting. -/
theorem array_null_arguments_accepted (env : Option String) (gem : Gemini)
    (name : String) (hn : name ≠ "") :
    (∀ params : JsValue, validateToolParams (.str name) params = .ok () ↔
      (params.truthy = false ∨ params.typeOf = "object")) ∧
    (∀ elems : List JsValue,
      callTool env gem ⟨.str "say_hello", .arr elems⟩ =
        .ok (toolText "Hello from your friendly MCP server!")) ∧
    callTool env gem ⟨.str "say_hello", .null⟩ =
      .ok (toolText "Hello from your friendly MCP server!") := by
  refine ⟨fun params => ?_, fun elems => rfl, rfl⟩
  cases params <;>
    simp [validateToolParams, JsValue.truthy, JsValue.typeOf, hn]

/-- Witness for C10 at concrete inputs: validation accepts the empty array,
and dispatch with an array argument reaches the say_hello handler. -/
theorem array_null_arguments_accepted_witness :
    (validateToolParams (.str "say_hello") (.arr []) = .ok () ↔
      ((JsValue.arr []).truthy = false ∨ (JsValue.arr []).typeOf = "object")) ∧
    callTool none (fun _ => .ok .undefined) ⟨.str "say_hello", .arr [.num 1]⟩ =
      .ok (toolText "Hello from your friendly MCP server!") :=
  ⟨(array_null_arguments_accepted none (fun _ => .ok .undefined) "say_hello"
      (by decide)).1 (.arr []),
   (array_null_arguments_accepted none (fun _ => .ok .undefined) "say_hello"
      (by decide)).2.1 [.num 1]⟩

/-- Claim C2: review_prompts argument validation: a missing or non-array prompts
value, an empty prompts array, a prompts array with a non-string element,
and a valid prompts array with a missing or blank credential each fail with
InvalidParams, with the messages the claim describes; the three
argument-shape messages are pairwise distinct. -/
theorem review_prompts_argument_validation (env : Option String) (gem : Gemini)
    (args : JsValue) (hwf : WfArgs args) :
    ((args.optChain "prompts").isArray = false →
      callTool env gem ⟨.str "review_prompts", args⟩ =
        .error ⟨.invalidParams, "prompts parameter is required and must be an array"⟩) ∧
    (args.optChain "prompts" = .arr [] →
      callTool env gem ⟨.str "review_prompts", args⟩ =
        .error ⟨.invalidParams, "prompts array cannot be empty"⟩) ∧
    (∀ elems : List JsValue, args.optChain "prompts" = .arr elems → elems ≠ [] →
      (∃ p ∈ elems, p.isString = false) →
      callTool env gem ⟨.str "review_prompts", args⟩ =
        .error ⟨.invalidParams, "All prompts must be strings"⟩) ∧
    (∀ elems : List JsValue, args.optChain "prompts" = .arr elems → elems ≠ [] →
      (∀ p ∈ elems, p.isString = true) → credentialMissing env →
      callTool env gem ⟨.str "review_prompts", args⟩ =
        .error ⟨.invalidParams, keyErrMsg⟩) ∧
    (strContains "prompts array cannot be empty" "empty" ∧
      strContains "All prompts must be strings" "must be strings" ∧
      strContains keyErrMsg "GEMINI_API_KEY" ∧
      "prompts parameter is required and must be an array" ≠
        "prompts array cannot be empty" ∧
      "prompts parameter is required and must be an array" ≠
        "All prompts must be strings" ∧
      "prompts array cannot be empty" ≠ "All prompts must be strings") := by
  refine ⟨fun h => ?_, fun h => ?_, fun elems hp hne hex => ?_,
    fun elems hp hne hall hcred => ?_, by decide⟩
  · have hcase : reviewPromptsCase env gem args =
        .error (.mcp ⟨.invalidParams,
          "prompts parameter is required and must be an array"⟩) := by
      unfold reviewPromptsCase
      split <;> simp_all [JsValue.isArray]
    rw [callTool_review_eq env gem args hwf, hcase]
    rfl
  · have hcase : reviewPromptsCase env gem args =
        .error (.mcp ⟨.invalidParams, "prompts array cannot be empty"⟩) := by
      simp [reviewPromptsCase, h]
    rw [callTool_review_eq env gem args hwf, hcase]
    rfl
  · rcases hex with ⟨p, hmem, hps⟩
    have hfmem : p ∈ elems.filter (fun q => !q.isString) :=
      List.mem_filter.mpr ⟨hmem, by simp [hps]⟩
    have hlen : 0 < (elems.filter (fun q => !q.isString)).length :=
      List.length_pos.mpr (List.ne_nil_of_mem hfmem)
    have h0 : ¬ elems.length = 0 := by simpa [List.length_eq_zero] using hne
    have hcase : reviewPromptsCase env gem args =
        .error (.mcp ⟨.invalidParams, "All prompts must be strings"⟩) := by
      simp only [reviewPromptsCase, hp]
      rw [if_neg h0, if_pos hlen]
    rw [callTool_review_eq env gem args hwf, hcase]
    rfl
  · have h0 : ¬ elems.length = 0 := by simpa [List.length_eq_zero] using hne
    have hflt : elems.filter (fun q => !q.isString) = [] :=
      List.filter_eq_nil_iff.mpr (fun p hp2 => by simp [hall p hp2])
    have h1 : ¬ (elems.filter (fun q => !q.isString)).length > 0 := by
      rw [hflt]
      simp
    have hcase : reviewPromptsCase env gem args =
        .error (.mcp ⟨.invalidParams, keyErrMsg⟩) := by
      simp only [reviewPromptsCase, hp]
      rw [if_neg h0, if_neg h1]
      rcases hcred with rfl | ⟨k, rfl, hk⟩
      · rfl
      · rcases hk with rfl | hk
        · rfl
        · simp [hk]
    rw [callTool_review_eq env gem args hwf, hcase]
    rfl

/-- Witness for C2 at a concrete input: a prompts array with a non-string
element fails with the `All prompts must be strings` message. -/
theorem review_prompts_argument_validation_witness :
    callTool (some "k") (fun _ => .ok .undefined)
      ⟨.str "review_prompts", .obj [("prompts", .arr [.str "a", .num 2])]⟩ =
      .error ⟨.invalidParams, "All prompts must be strings"⟩ :=
  (review_prompts_argument_validation (some "k") (fun _ => .ok .undefined)
      (.obj [("prompts", .arr [.str "a", .num 2])])
      (Or.inr ⟨_, rfl⟩)).2.2.1 [.str "a", .num 2] rfl
    (List.cons_ne_nil _ _)
    ⟨.num 2, List.mem_cons_of_mem _ (List.mem_cons_self _ _), rfl⟩

/-- Claim C4 as stated is false on the code: with a non-empty credential present
and a collaborator generation yielding the empty text, the invocation does
not fail with InternalError; testConnectivity substitutes the fallback text
`No response from Gemini API` and the invocation succeeds with it. -/
theorem test_gemini_empty_result_counterexample :
    callTool (some "k") (fun _ => .ok (.str "")) ⟨.str "test_gemini", .undefined⟩ =
      .ok (toolText "No response from Gemini API") ∧
    callTool (some "k") (fun _ => .ok (.str "")) ⟨.str "test_gemini", .undefined⟩ ≠
      .error ⟨.internalError, "Gemini API did not return a valid response"⟩ :=
  ⟨rfl, fun h => nomatch h⟩

/-- Claim C4 amended: for a test_gemini invocation with a non-empty credential: a
truthy non-string collaborator result fails with InternalError; an empty or
otherwise falsy result is replaced by the fallback text `No response from
Gemini API` and the invocation succeeds with it; and a non-empty string
result is returned as the invocation text. -/
theorem test_gemini_result_handling (env : Option String) (k : String)
    (hk : env = some k) (hk1 : k ≠ "") (hk2 : jsTrim k ≠ "") (gem : Gemini)
    (args : JsValue) (hwf : WfArgs args) :
    (∀ v : JsValue, gem testPrompt = .ok v → v.truthy = true →
      v.isString = false →
      callTool env gem ⟨.str "test_gemini", args⟩ =
        .error ⟨.internalError, "Gemini API did not return a valid response"⟩) ∧
    (∀ v : JsValue, gem testPrompt = .ok v → v.truthy = false →
      callTool env gem ⟨.str "test_gemini", args⟩ =
        .ok (toolText "No response from Gemini API")) ∧
    (∀ s : String, gem testPrompt = .ok (.str s) → s ≠ "" →
      callTool env gem ⟨.str "test_gemini", args⟩ = .ok (toolText s)) := by
  subst hk
  have hconn : ∀ v : JsValue, gem testPrompt = .ok v →
      testConnectivity gem k =
        .ok (if v.truthy then v else .str "No response from Gemini API") := by
    intro v hv
    simp only [testConnectivity, createGeminiClient]
    rw [if_neg (by simp [hk1, hk2]), hv]
  refine ⟨fun v hv ht hs => ?_, fun v hv ht => ?_, fun s hv hs => ?_⟩
  · have hcase : testGeminiCase (some k) gem =
        .error (.mcp ⟨.internalError, "Gemini API did not return a valid response"⟩) := by
      simp only [testGeminiCase]
      rw [if_neg (by simp [hk1, hk2]), hconn v hv]
      simp [ht, hs]
    rw [callTool_testGemini_eq (some k) gem args hwf, hcase]
    rfl
  · have hcase : testGeminiCase (some k) gem =
        .ok (toolText "No response from Gemini API") := by
      simp only [testGeminiCase]
      rw [if_neg (by simp [hk1, hk2]), hconn v hv, if_neg (by simp [ht])]
      rfl
    rw [callTool_testGemini_eq (some k) gem args hwf, hcase]
  · have hcase : testGeminiCase (some k) gem = .ok (toolText s) := by
      simp only [testGeminiCase]
      rw [if_neg (by simp [hk1, hk2]), hconn (.str s) hv]
      simp [JsValue.truthy, JsValue.isString, JsValue.strVal, hs]
    rw [callTool_testGemini_eq (some k) gem args hwf, hcase]

/-- Witness for the amended C4 at a concrete input: a truthy numeric
collaborator result fails with InternalError. -/
theorem test_gemini_result_handling_witness :
    callTool (some "k") (fun _ => .ok (.num 1)) ⟨.str "test_gemini", .undefined⟩ =
      .error ⟨.internalError, "Gemini API did not return a valid response"⟩ :=
  (test_gemini_result_handling (some "k") "k" rfl (by decide) (by decide)
      (fun _ => .ok (.num 1)) .undefined (Or.inl rfl)).1 (.num 1) rfl rfl rfl

/-- Claim C5: a say_hello invocation always succeeds with the computed message;
when the name argument is absent, not a string, or blank after trimming the
message does not contain `Nice to meet you`, and when it is a string that is
non-empty after trimming the message contains `Nice to meet you, ` followed
by the trimmed name and `!`. -/
theorem say_hello_personalization (env : Option String) (gem : Gemini)
    (args : JsValue) (hwf : WfArgs args) :
    callTool env gem ⟨.str "say_hello", args⟩ =
      .ok (toolText (sayHelloMessage args)) ∧
    (((args.optChain "name").truthy = false ∨
      (args.optChain "name").isString = false ∨
      jsTrim (args.optChain "name").strVal = "") →
      ¬ strContains (sayHelloMessage args) "Nice to meet you") ∧
    (∀ s : String, args.optChain "name" = .str s → jsTrim s ≠ "" →
      strContains (sayHelloMessage args)
        ("Nice to meet you, " ++ jsTrim s ++ "!")) := by
  refine ⟨?_, fun h => ?_, fun s hs hne => ?_⟩
  · rcases hwf with rfl | ⟨fs, rfl⟩ <;> rfl
  · have hbase : sayHelloMessage args = "Hello from your friendly MCP server!" := by
      unfold sayHelloMessage
      rcases h with h | h | h <;> simp [h]
    rw [hbase]
    decide
  · have hs0 : s ≠ "" := by
      intro h0
      exact hne (by rw [h0]; rfl)
    have hmsg : sayHelloMessage args =
        "Hello from your friendly MCP server!" ++ " Nice to meet you, " ++
          jsTrim s ++ "!" := by
      unfold sayHelloMessage
      rw [hs, if_pos (by simp [JsValue.truthy, JsValue.isString,
        JsValue.strVal, hs0, hne])]
      rfl
    rw [hmsg]
    have hsplit : "Hello from your friendly MCP server!" ++ " Nice to meet you, " ++
        jsTrim s ++ "!" =
        ("Hello from your friendly MCP server!" ++ " ") ++
          ("Nice to meet you, " ++ jsTrim s ++ "!") := by
      apply stringDataEq
      simp [String.data_append]
    rw [hsplit]
    exact strContains_append_right _ _ _ (strContains_refl _)

/-- Witness for C5 at a concrete input: the name ` Ada ` is trimmed and
greeted. -/
theorem say_hello_personalization_witness :
    callTool none (fun _ => .ok .undefined)
      ⟨.str "say_hello", .obj [("name", .str " Ada ")]⟩ =
      .ok (toolText "Hello from your friendly MCP server! Nice to meet you, Ada!") ∧
    strContains "Hello from your friendly MCP server! Nice to meet you, Ada!"
      "Nice to meet you, Ada!" :=
  ⟨(say_hello_personalization none (fun _ => .ok .undefined)
      (.obj [("name", .str " Ada ")]) (Or.inr ⟨_, rfl⟩)).1,
   (say_hello_personalization none (fun _ => .ok .undefined)
      (.obj [("name", .str " Ada ")]) (Or.inr ⟨_, rfl⟩)).2.2 " Ada " rfl
      (by decide)⟩

/-- Claim C7: for a non-empty list of string prompts (with a usable credential and
a collaborator answering the aggregate prompt with a non-empty text), the
invocation returns the collaborator text verbatim, and the aggregate prompt
sent to the collaborator embeds every input prompt numbered consecutively
from 1 in input order. -/
theorem review_prompts_numbering_verbatim (prompts : List String)
    (hne : prompts ≠ []) (env : Option String) (k : String) (hk : env = some k)
    (hk1 : k ≠ "") (hk2 : jsTrim k ≠ "") (gem : Gemini) (t : String)
    (hg : gem (buildReviewPrompt prompts) = .ok (.str t)) (ht : t ≠ "") :
    callTool env gem
      ⟨.str "review_prompts", .obj [("prompts", .arr (prompts.map .str))]⟩ =
      .ok (toolText t) ∧
    ∀ i (hi : i < prompts.length),
      strContains (buildReviewPrompt prompts)
        (toString (i + 1) ++ ". " ++ prompts[i]) := by
  subst hk
  refine ⟨?_, fun i hi => strContains_buildReviewPrompt prompts i hi⟩
  have hopt : (JsValue.obj [("prompts", .arr (prompts.map .str))]).optChain
      "prompts" = .arr (prompts.map .str) := rfl
  have h0 : ¬ (prompts.map JsValue.str).length = 0 := by
    simpa [List.length_eq_zero] using hne
  have hflt : (prompts.map JsValue.str).filter (fun q => !q.isString) = [] := by
    refine List.filter_eq_nil_iff.mpr fun p hp => ?_
    rcases List.mem_map.mp hp with ⟨s, _, rfl⟩
    simp [JsValue.isString]
  have h1 : ¬ ((prompts.map JsValue.str).filter (fun q => !q.isString)).length > 0 := by
    rw [hflt]
    simp
  have hmap : (prompts.map JsValue.str).map JsValue.strVal = prompts := by
    rw [List.map_map]
    exact List.map_id'' (fun _ => rfl) prompts
  have hrev : reviewPromptsGemini gem prompts k = .ok (.str t) := by
    simp only [reviewPromptsGemini, createGeminiClient]
    rw [if_neg (by simp [hk1, hk2]), hg]
    simp [JsValue.truthy, ht]
  have hcase : reviewPromptsCase (some k) gem
      (.obj [("prompts", .arr (prompts.map .str))]) = .ok (toolText t) := by
    simp only [reviewPromptsCase, hopt, if_neg h0, if_neg h1, hmap]
    rw [if_neg (by simp [hk1, hk2]), hrev]
    simp [JsValue.truthy, JsValue.isString, JsValue.strVal, ht]
  rw [callTool_review_eq (some k) gem _ (Or.inr ⟨_, rfl⟩), hcase]

/-- Witness for C7 at a concrete input: two prompts, a collaborator
returning the text `feedback`, and the second numbered line. -/
theorem review_prompts_numbering_verbatim_witness :
    callTool (some "k") (fun _ => .ok (.str "feedback"))
      ⟨.str "review_prompts", .obj [("prompts", .arr [.str "a", .str "b"])]⟩ =
      .ok (toolText "feedback") ∧
    strContains (buildReviewPrompt ["a", "b"]) "2. b" :=
  ⟨(review_prompts_numbering_verbatim ["a", "b"] (List.cons_ne_nil _ _)
      (some "k") "k" rfl (by decide) (by decide)
      (fun _ => .ok (.str "feedback")) "feedback" rfl (by decide)).1,
   (review_prompts_numbering_verbatim ["a", "b"] (List.cons_ne_nil _ _)
      (some "k") "k" rfl (by decide) (by decide)
      (fun _ => .ok (.str "feedback")) "feedback" rfl (by decide)).2 1
      (by decide)⟩

/-- Claim C8: a get_current_time invocation never raises: for every outcome of the
locale formatting step it returns a result whose text is non-empty, and when
formatting fails the text falls back to the ISO timestamp string instead of
propagating the error. -/
theorem get_current_time_total_fallback (randIdx : Nat)
    (fmt : Except String String) (isoNow infoText : String) (args : JsValue)
    (hwf : WfArgs args) :
    callToolHello randIdx fmt isoNow infoText ⟨.str "get_current_time", args⟩ =
      .ok (toolText ("The current time is: " ++ getCurrentTimeFormatted fmt isoNow)) ∧
    ("The current time is: " ++ getCurrentTimeFormatted fmt isoNow) ≠ "" ∧
    (∀ e : String, fmt = .error e →
      getCurrentTimeFormatted fmt isoNow = isoNow) := by
  refine ⟨?_, fun h => ?_, fun e he => ?_⟩
  · rcases hwf with rfl | ⟨fs, rfl⟩ <;> rfl
  · have h2 := congrArg String.length h
    rw [String.length_append] at h2
    have h3 : ("The current time is: " : String).length = 21 := rfl
    have h4 : ("" : String).length = 0 := rfl
    omega
  · rw [he]
    rfl

/-- Witness for C8 at a concrete input: a failing locale formatting step
still yields the ISO fallback text. -/
theorem get_current_time_total_fallback_witness :
    callToolHello 0 (.error "fmt failed") "2026-10-11T00:00:00.000Z" "info"
      ⟨.str "get_current_time", .undefined⟩ =
      .ok (toolText "The current time is: 2026-10-11T00:00:00.000Z") ∧
    getCurrentTimeFormatted (.error "fmt failed") "2026-10-11T00:00:00.000Z" =
      "2026-10-11T00:00:00.000Z" :=
  ⟨(get_current_time_total_fallback 0 (.error "fmt failed")
      "2026-10-11T00:00:00.000Z" "info" .undefined (Or.inl rfl)).1,
   (get_current_time_total_fallback 0 (.error "fmt failed")
      "2026-10-11T00:00:00.000Z" "info" .undefined (Or.inl rfl)).2.2 "fmt failed" rfl⟩
